import Mathlib

/-!
Verification development for the FreeRTOS access-control program
(`Sistema de Controle de Acesso com FreeRTOS`).

The program keeps an occupancy count for a room of capacity
`Max_pessoas = 10`.  The count is materialised twice: as the count of a
FreeRTOS counting semaphore `xFilaPessoaSem` (created with maximum
`Max_pessoas` and initial count 0) and as the mirrored global
`Num_Pessoas`.  Entry, exit and reset tasks mutate this pair; display,
buzzer and two LED-indicator tasks observe it.

The embedding below models each task body (the part that runs once the
task is unblocked) as a transition function on an explicit record of the
shared globals, with the semaphore count carried as a natural number
(FreeRTOS `UBaseType_t` counts cannot go negative and `xSemaphoreGive`
on a counting semaphore fails exactly when the count is at its maximum;
`xSemaphoreTake` with a zero timeout fails exactly when the count is 0).
`Num_Pessoas` is a C `int`, modelled as `ℤ`.
-/

namespace AccessControl

/-- Capacity of the room (`int Max_pessoas = 10` in the source). -/
def Max_pessoas : ℕ := 10

/-- Behaviour of `xSemaphoreGive` on a counting semaphore with maximum
`cap`: the count increments iff it is strictly below `cap`; the returned
flag is `pdTRUE` on success and `pdFALSE` when the semaphore is full. -/
def semGive (cap c : ℕ) : ℕ × Bool :=
  if c < cap then (c + 1, true) else (c, false)

/-- Behaviour of `xSemaphoreTake(sem, 0)` on a counting semaphore: the
count decrements iff it is strictly positive; `pdFALSE` when empty. -/
def semTake (c : ℕ) : ℕ × Bool :=
  if 0 < c then (c - 1, true) else (c, false)

/-- The shared globals of the program together with the counts of the
two synchronisation objects that carry state across tasks:
`semCount` is the count of `xFilaPessoaSem`, `resetPending` the state of
the binary semaphore `xResetSem`. -/
structure SysState where
  semCount : ℕ
  Num_Pessoas : ℤ
  Entrada_nao_permetida : Bool
  resetar_sistema : Bool
  resetPending : Bool
deriving DecidableEq

/-- State right after `main` created the semaphores:
`xSemaphoreCreateCounting(Max_pessoas, 0)`, `Num_Pessoas = 0`, both
flags `false`, binary semaphore empty. -/
def init_state : SysState :=
  { semCount := 0, Num_Pessoas := 0, Entrada_nao_permetida := false,
    resetar_sistema := false, resetPending := false }

/-- Body of `vEntradaTask` once `Pressed_debounce` accepted a press
(lines 347-364 of the source): first the pre-check
`if (Num_Pessoas == Max_pessoas) Entrada_nao_permetida = true;`, then
`xSemaphoreGive(xFilaPessoaSem)`; on success `Num_Pessoas` is refreshed
from `uxSemaphoreGetCount`.  The returned `Bool` is the give result
(`true` = entry accepted, `false` = rejected at capacity). -/
def try_increment (cap : ℕ) (s : SysState) : SysState × Bool :=
  let s1 := if s.Num_Pessoas = (cap : ℤ) then
              { s with Entrada_nao_permetida := true } else s
  let g := semGive cap s1.semCount
  if g.2 then ({ s1 with semCount := g.1, Num_Pessoas := (g.1 : ℤ) }, true)
  else (s1, false)

/-- Body of `vSaidaTask` once a press is accepted (lines 381-393):
`xSemaphoreTake(xFilaPessoaSem, 0)`; on success `Num_Pessoas` is
refreshed from the semaphore count; on failure only a log line is
printed and nothing changes. -/
def try_decrement (s : SysState) : SysState × Bool :=
  let t := semTake s.semCount
  if t.2 then ({ s with semCount := t.1, Num_Pessoas := (t.1 : ℤ) }, true)
  else (s, false)

/-- Drain loop of `vResetTask` (lines 417-419):
`while (uxSemaphoreGetCount(xFilaPessoaSem) > 0) xSemaphoreTake(xFilaPessoaSem, 0);`
returns the number of take operations executed and the final count. -/
def drain_loop (c : ℕ) : ℕ × ℕ :=
  if h : 0 < c then
    let r := drain_loop (semTake c).1
    (r.1 + 1, r.2)
  else (0, c)
termination_by c
decreasing_by
  simp only [semTake, if_pos h]
  omega

/-- Body of `vResetTask` after the reset signal is taken (lines
414-429): drain the counting semaphore, then `Num_Pessoas = 0;
Entrada_nao_permetida = false; resetar_sistema = true;`. -/
def drain_and_reset (s : SysState) : SysState :=
  { s with semCount := (drain_loop s.semCount).2, Num_Pessoas := 0,
           Entrada_nao_permetida := false, resetar_sistema := true }

/-- One wake-up opportunity of `vResetTask`: it runs the reset body iff
the binary semaphore `xResetSem` is pending, consuming the signal.  The
second component counts how many `drain_and_reset` executions the run
performed. -/
def resetTaskRun (s : SysState) : SysState × ℕ :=
  if s.resetPending then ({ drain_and_reset s with resetPending := false }, 1)
  else (s, 0)

/-- Behaviour of `xSemaphoreGiveFromISR` on the binary semaphore
`xResetSem` (line 138): if a signal is already pending the give fails
and the state is unchanged (the signal coalesces); otherwise the signal
becomes pending.  Returns the new pending state and the give result. -/
def resetGiveFromISR (pending : Bool) : Bool × Bool :=
  if pending then (pending, false) else (true, true)

/-- Body of the `vBuzzerTask` loop (lines 518-526): consumes
`Entrada_nao_permetida` first, else `resetar_sistema`, clearing the flag
it consumed. -/
def vBuzzerStep (s : SysState) : SysState :=
  if s.Entrada_nao_permetida then { s with Entrada_nao_permetida := false }
  else if s.resetar_sistema then { s with resetar_sistema := false }
  else s

/-- Reachable shared states of the program: the initial state after
`main`, closed under the bodies of the entry task, the exit task, the
reset ISR, the reset task and the buzzer task (the display and LED
tasks only read the shared state). -/
inductive Reachable : SysState → Prop where
  | init : Reachable init_state
  | entrada {s} : Reachable s → Reachable (try_increment Max_pessoas s).1
  | saida {s} : Reachable s → Reachable (try_decrement s).1
  | isr {s} : Reachable s →
      Reachable { s with resetPending := (resetGiveFromISR s.resetPending).1 }
  | reset {s} : Reachable s → Reachable (resetTaskRun s).1
  | buzzer {s} : Reachable s → Reachable (vBuzzerStep s)

/-- Debounce bookkeeping per button (`DebounceState` in the source). -/
structure DebounceState where
  last_time : ℕ
  last_state : Bool
deriving DecidableEq

/-- Unsigned 32-bit subtraction `a - b` as computed on `uint32_t`
operands below `2^32`. -/
def sub32 (a b : ℕ) : ℕ := if b ≤ a then a - b else a + 4294967296 - b

/-- Software debounce (`Pressed_debounce`, lines 156-167): accepts iff
the raw input reads pressed and more than 250 ms elapsed since the last
accepted press; on acceptance `last_time` is set to `now`. -/
def Pressed_debounce (pressed : Bool) (now : ℕ) (st : DebounceState) :
    Bool × DebounceState :=
  if pressed = true ∧ 250 < sub32 now st.last_time then
    (true, { st with last_time := now })
  else (false, st)

/-- What one iteration of `vDisplayTask` draws. -/
inductive Screen where
  | noRender : Screen
  | resetScreen : Screen
  | normalScreen : ℤ → String → Screen
deriving DecidableEq

/-- Status message chosen by `vDisplayTask` (lines 460-469). -/
def displayInfo (num : ℤ) : String :=
  if (Max_pessoas : ℤ) ≤ num then "NUMERO MAXIMO"
  else if num = (Max_pessoas : ℤ) - 1 then "APENAS 1 VAGA"
  else "PODE ENTRAR"

/-- Initial value of the display task's local `numero_anterior`
(line 442 of the source: `int numero_anterior = -1;`). -/
def numero_anterior_init : ℤ := -1

/-- One iteration of the `vDisplayTask` loop after it snapshotted
`num` (lines 457-501): nothing is drawn unless `num` differs from the
remembered `numero_anterior`; inside that guard the reset screen is
drawn when `resetar_sistema` is set, the normal screen otherwise, and
`numero_anterior` becomes `num`. -/
def vDisplayStep (resetPulse : Bool) (num prev : ℤ) : Screen × ℤ :=
  if num ≠ prev then
    (if resetPulse then Screen.resetScreen
     else Screen.normalScreen num (displayInfo num), num)
  else (Screen.noRender, prev)

/-- Colors drawn by the indicator tasks. -/
inductive LedColor where
  | azul : LedColor
  | verde : LedColor
  | amarelo : LedColor
  | vermelho : LedColor
deriving DecidableEq

/-- Color chosen by the branch chain of `vMatriz_LedsTask`
(lines 548-563); `none` when no branch fires. -/
def matrizColor (num : ℤ) : Option LedColor :=
  if num = 0 then some LedColor.azul
  else if 0 < num ∧ num ≤ (Max_pessoas : ℤ) - 2 then some LedColor.verde
  else if num = (Max_pessoas : ℤ) - 1 then some LedColor.amarelo
  else if num = (Max_pessoas : ℤ) then some LedColor.vermelho
  else none

/-- PWM levels `(green, red, blue)` chosen by the branch chain of
`vLeds_RGBTask` (lines 597-620); `none` when no branch fires. -/
def rgbLevels (num : ℤ) : Option (ℕ × ℕ × ℕ) :=
  if num = 0 then some (0, 0, 100)
  else if 0 < num ∧ num ≤ (Max_pessoas : ℤ) - 2 then some (100, 0, 0)
  else if num = (Max_pessoas : ℤ) - 1 then some (100, 100, 0)
  else if num = (Max_pessoas : ℤ) then some (0, 100, 0)
  else none

/-- Occupancy bands named by the spec. -/
inductive OccupancyBand where
  | empty : OccupancyBand
  | normal : OccupancyBand
  | warning : OccupancyBand
  | full : OccupancyBand
deriving DecidableEq

/-- Modelled from the spec: `OccupancyBand` is "a pure function of
Occupancy and Capacity: Empty (0), Normal (1..Capacity-2), Warning
(Capacity-1), Full (Capacity)".  `none` off the range `[0, Capacity]`. -/
def occupancyBand (cap num : ℤ) : Option OccupancyBand :=
  if num = 0 then some OccupancyBand.empty
  else if 1 ≤ num ∧ num ≤ cap - 2 then some OccupancyBand.normal
  else if num = cap - 1 then some OccupancyBand.warning
  else if num = cap then some OccupancyBand.full
  else none

/-- Modelled from the spec: the indicator color of each band ("blue for
Empty, green for Normal, yellow for Warning, red for Full"). -/
def bandColor : OccupancyBand → LedColor
  | OccupancyBand.empty => LedColor.azul
  | OccupancyBand.normal => LedColor.verde
  | OccupancyBand.warning => LedColor.amarelo
  | OccupancyBand.full => LedColor.vermelho

/-- PWM levels `(green, red, blue)` realising each band color on the
RGB LED. -/
def bandRgb : OccupancyBand → ℕ × ℕ × ℕ
  | OccupancyBand.empty => (0, 0, 100)
  | OccupancyBand.normal => (100, 0, 0)
  | OccupancyBand.warning => (100, 100, 0)
  | OccupancyBand.full => (0, 100, 0)

/-- Entry attempts iterated `k` times starting from `init_state`. -/
def iterEntry (cap : ℕ) : ℕ → SysState
  | 0 => init_state
  | k + 1 => (try_increment cap (iterEntry cap k)).1

/-- Whether all of the first `k` iterated entry attempts were accepted. -/
def allAccepted (cap : ℕ) : ℕ → Bool
  | 0 => true
  | k + 1 => allAccepted cap k && (try_increment cap (iterEntry cap k)).2

/-! ## Helper lemmas -/

/-- The drain loop takes exactly `c` times and leaves the count at 0. -/
theorem drain_loop_spec (c : ℕ) : drain_loop c = (c, 0) := by
  induction c with
  | zero =>
    rw [drain_loop]
    simp
  | succ n ih =>
    rw [drain_loop]
    simp [semTake, ih]

/-- The mirror invariant maintained by the program: `Num_Pessoas` equals
the count of `xFilaPessoaSem`, and that count never exceeds the
semaphore maximum `Max_pessoas`. -/
def Inv (s : SysState) : Prop :=
  s.Num_Pessoas = (s.semCount : ℤ) ∧ s.semCount ≤ Max_pessoas

/-- The entry body preserves the mirror invariant (for any capacity). -/
theorem try_increment_inv {cap : ℕ} {s : SysState}
    (h1 : s.Num_Pessoas = (s.semCount : ℤ)) (h2 : s.semCount ≤ cap) :
    (try_increment cap s).1.Num_Pessoas =
      ((try_increment cap s).1.semCount : ℤ) ∧
    (try_increment cap s).1.semCount ≤ cap := by
  unfold try_increment semGive
  by_cases hc : s.semCount < cap <;>
    by_cases hn : s.Num_Pessoas = (cap : ℤ) <;>
      simp [hc, hn] <;> omega

/-- The exit body preserves the mirror invariant (for any capacity). -/
theorem try_decrement_inv {cap : ℕ} {s : SysState}
    (h1 : s.Num_Pessoas = (s.semCount : ℤ)) (h2 : s.semCount ≤ cap) :
    (try_decrement s).1.Num_Pessoas = ((try_decrement s).1.semCount : ℤ) ∧
    (try_decrement s).1.semCount ≤ cap := by
  unfold try_decrement semTake
  by_cases hc : 0 < s.semCount <;> simp [hc] <;> omega

theorem reachable_inv {s : SysState} (h : Reachable s) : Inv s := by
  induction h with
  | init => exact ⟨rfl, Nat.zero_le _⟩
  | entrada _ ih => exact try_increment_inv ih.1 ih.2
  | saida _ ih => exact try_decrement_inv ih.1 ih.2
  | isr _ ih => exact ih
  | @reset s _ ih =>
    by_cases hp : s.resetPending = true
    · simp [Inv, resetTaskRun, hp, drain_and_reset, drain_loop_spec]
    · simpa [resetTaskRun, hp] using ih
  | @buzzer s _ ih =>
    unfold vBuzzerStep
    split
    · exact ih
    · split
      · exact ih
      · exact ih

/-- When the semaphore is below capacity and the pre-check does not
fire, the entry body increments the count and reports acceptance. -/
theorem try_increment_accept {cap : ℕ} {s : SysState}
    (h : s.semCount < cap) (hne : s.Num_Pessoas ≠ (cap : ℤ)) :
    try_increment cap s =
      ({ s with semCount := s.semCount + 1,
                Num_Pessoas := ((s.semCount + 1 : ℕ) : ℤ) }, true) := by
  simp [try_increment, semGive, h, hne]

/-- When the semaphore is full and `Num_Pessoas` equals the capacity,
the entry body sets the blocked flag and reports rejection. -/
theorem try_increment_reject_full {cap : ℕ} {s : SysState}
    (h : ¬s.semCount < cap) (hn : s.Num_Pessoas = (cap : ℤ)) :
    try_increment cap s = ({ s with Entrada_nao_permetida := true }, false) := by
  simp [try_increment, semGive, h, hn]

/-- After `k ≤ cap` iterated entry attempts from the initial state the
semaphore count and `Num_Pessoas` are both `k` and every attempt was
accepted. -/
theorem iterEntry_spec (cap k : ℕ) (hk : k ≤ cap) :
    (iterEntry cap k).semCount = k ∧
    (iterEntry cap k).Num_Pessoas = (k : ℤ) ∧
    allAccepted cap k = true := by
  induction k with
  | zero => exact ⟨rfl, rfl, rfl⟩
  | succ n ih =>
    obtain ⟨hc, hn, ha⟩ := ih (Nat.le_of_succ_le hk)
    have hlt : n < cap := Nat.lt_of_succ_le hk
    have hclt : (iterEntry cap n).semCount < cap := by omega
    have hne : (iterEntry cap n).Num_Pessoas ≠ (cap : ℤ) := by
      rw [hn]
      exact_mod_cast Nat.ne_of_lt hlt
    have hstep := try_increment_accept hclt hne
    refine ⟨?_, ?_, ?_⟩
    · simp only [iterEntry]
      rw [hstep, hc]
    · simp only [iterEntry]
      rw [hstep, hc]
    · simp only [allAccepted]
      rw [hstep, ha]
      rfl

/-! ## Claim theorems -/

/-- C1: for every reachable state of the system the occupancy count
`Num_Pessoas` (mirroring the counting semaphore `xFilaPessoaSem`)
satisfies `0 ≤ Num_Pessoas ≤ Max_pessoas`; mutation happens only
through the entry, exit and reset task bodies that generate
`Reachable`, and none of them drives the count negative or above the
capacity. -/
theorem C1_occupancy_invariant {s : SysState} (h : Reachable s) :
    0 ≤ s.Num_Pessoas ∧ s.Num_Pessoas ≤ (Max_pessoas : ℤ) := by
  obtain ⟨h1, h2⟩ := reachable_inv h
  constructor
  · rw [h1]
    exact Int.natCast_nonneg _
  · rw [h1]
    exact_mod_cast h2

/-- Witness for C1 at the concrete reachable state obtained by one
entry attempt from the initial state. -/
theorem C1_occupancy_invariant_witness :
    0 ≤ (try_increment Max_pessoas init_state).1.Num_Pessoas ∧
    (try_increment Max_pessoas init_state).1.Num_Pessoas ≤
      (Max_pessoas : ℤ) :=
  C1_occupancy_invariant (Reachable.entrada Reachable.init)

/-- C2: the entry-acceptance step of `vEntradaTask` succeeds iff the
occupancy is strictly below the capacity (the check-and-act being the
single atomic `xSemaphoreGive` transition); on success the occupancy
grows by exactly 1, on rejection `Entrada_nao_permetida` is set and the
occupancy is unchanged; moreover from occupancy 0, `cap` consecutive
calls all succeed and reach occupancy `cap`, and the `(cap+1)`-th call
is rejected leaving the occupancy at `cap`. -/
theorem C2_try_increment :
    (∀ (cap : ℕ) (s : SysState),
      s.Num_Pessoas = (s.semCount : ℤ) → s.semCount ≤ cap →
        (((try_increment cap s).2 = true ↔ s.Num_Pessoas < (cap : ℤ)) ∧
         ((try_increment cap s).2 = true →
            (try_increment cap s).1.Num_Pessoas = s.Num_Pessoas + 1) ∧
         ((try_increment cap s).2 = false →
            (try_increment cap s).1.Entrada_nao_permetida = true ∧
            (try_increment cap s).1.Num_Pessoas = s.Num_Pessoas))) ∧
    (∀ cap : ℕ,
      (iterEntry cap cap).Num_Pessoas = (cap : ℤ) ∧
      allAccepted cap cap = true ∧
      (try_increment cap (iterEntry cap cap)).2 = false ∧
      (try_increment cap (iterEntry cap cap)).1.Num_Pessoas = (cap : ℤ)) := by
  constructor
  · intro cap s h1 h2
    by_cases hclt : s.semCount < cap
    · have hne : s.Num_Pessoas ≠ (cap : ℤ) := by omega
      rw [try_increment_accept hclt hne]
      refine ⟨⟨fun _ => by omega, fun _ => rfl⟩, fun _ => ?_,
        fun hfalse => absurd hfalse (by simp)⟩
      show ((s.semCount + 1 : ℕ) : ℤ) = s.Num_Pessoas + 1
      omega
    · have hn : s.Num_Pessoas = (cap : ℤ) := by omega
      rw [try_increment_reject_full hclt hn]
      refine ⟨⟨fun htrue => absurd htrue (by simp), fun hlt2 => ?_⟩,
        fun htrue => absurd htrue (by simp), fun _ => ⟨rfl, rfl⟩⟩
      exfalso
      omega
  · intro cap
    obtain ⟨hc, hn, ha⟩ := iterEntry_spec cap cap le_rfl
    have hfull : ¬(iterEntry cap cap).semCount < cap := by omega
    have hreject := try_increment_reject_full hfull hn
    refine ⟨hn, ha, ?_, ?_⟩
    · rw [hreject]
    · rw [hreject]
      exact hn

/-- Witness for C2 at capacity 10 and the initial state. -/
theorem C2_try_increment_witness :
    (try_increment 10 init_state).2 = true ∧
    (iterEntry 10 10).Num_Pessoas = (10 : ℤ) ∧
    (try_increment 10 (iterEntry 10 10)).2 = false :=
  ⟨(C2_try_increment.1 10 init_state rfl (by decide)).1.mpr (by decide),
   (C2_try_increment.2 10).1,
   (C2_try_increment.2 10).2.2.1⟩

/-- C3: the body of `vResetTask` after it is signaled unconditionally
establishes occupancy 0 (both in `Num_Pessoas` and in the drained
semaphore), `Entrada_nao_permetida = false` and
`resetar_sistema = true`, for every prior state. -/
theorem C3_drain_and_reset (s : SysState) :
    (drain_and_reset s).Num_Pessoas = 0 ∧
    (drain_and_reset s).Entrada_nao_permetida = false ∧
    (drain_and_reset s).resetar_sistema = true ∧
    (drain_and_reset s).semCount = 0 := by
  refine ⟨rfl, rfl, rfl, ?_⟩
  simp [drain_and_reset, drain_loop_spec]

/-- C10: the drain loop of `vResetTask` terminates for every starting
count (`drain_loop` is a total function), and it performs exactly
`c` take operations, leaving the semaphore count at 0. -/
theorem C10_drain_loop (c : ℕ) :
    (drain_loop c).1 = c ∧ (drain_loop c).2 = 0 := by
  simp [drain_loop_spec]

/-- C4 counterexample: two `Pressed_debounce` calls with the input
pressed at times 200 and 300 (separated by 100 ms, less than the 250 ms
quiet period) on a state whose last accepted press was at time 100 both
return `false`, so it is not the case that exactly one of the two
returns `true`. -/
theorem C4_debounce_counterexample :
    300 - 200 < 250 ∧
    (Pressed_debounce true 200 ⟨100, false⟩).1 = false ∧
    (Pressed_debounce true 300 (Pressed_debounce true 200 ⟨100, false⟩).2).1 =
      false := by
  decide

/-- C4 (amended): `Pressed_debounce` returns `true` only if the raw
input reads pressed and `now - last_time ≥ 250` (the code requires the
strict `> 250`), and on acceptance it stores `now` in `last_time`; two
pressed polls separated by less than the quiet period yield at most one
`true`, and exactly one when the first poll itself accepts. -/
theorem C4_debounce :
    (∀ (pressed : Bool) (now : ℕ) (st : DebounceState),
        (Pressed_debounce pressed now st).1 = true →
          pressed = true ∧ 250 ≤ sub32 now st.last_time ∧
          (Pressed_debounce pressed now st).2.last_time = now) ∧
    (∀ (st : DebounceState) (t1 t2 : ℕ), t1 ≤ t2 → t2 - t1 < 250 →
        ¬((Pressed_debounce true t1 st).1 = true ∧
          (Pressed_debounce true t2 (Pressed_debounce true t1 st).2).1 =
            true)) ∧
    (∀ (st : DebounceState) (t1 t2 : ℕ), t1 ≤ t2 → t2 - t1 < 250 →
        (Pressed_debounce true t1 st).1 = true →
        (Pressed_debounce true t2 (Pressed_debounce true t1 st).2).1 =
          false) := by
  have key : ∀ (st : DebounceState) (t1 t2 : ℕ), t1 ≤ t2 → t2 - t1 < 250 →
      (Pressed_debounce true t1 st).1 = true →
      (Pressed_debounce true t2 (Pressed_debounce true t1 st).2).1 = false := by
    intro st t1 t2 hle hsep h1
    have hcond : 250 < sub32 t1 st.last_time := by
      by_contra hcon
      simp [Pressed_debounce, hcon] at h1
    have hst2 : (Pressed_debounce true t1 st).2 = { st with last_time := t1 } := by
      simp [Pressed_debounce, hcond]
    rw [hst2]
    have hsub : sub32 t2 t1 = t2 - t1 := by
      simp [sub32, hle]
    simp only [Pressed_debounce]
    rw [if_neg]
    intro hcontra
    rw [hsub] at hcontra
    omega
  refine ⟨?_, ?_, key⟩
  · intro pressed now st h
    by_cases hc : pressed = true ∧ 250 < sub32 now st.last_time
    · exact ⟨hc.1, Nat.le_of_lt hc.2, by simp [Pressed_debounce, hc]⟩
    · simp [Pressed_debounce, hc] at h
  · intro st t1 t2 hle hsep hand
    have := key st t1 t2 hle hsep hand.1
    rw [this] at hand
    exact Bool.false_ne_true hand.2

/-- Witness for C4: from a fresh debounce state, a press at time 300 is
accepted and records `last_time = 300`; a second pressed poll at time
400 (100 ms later) is rejected. -/
theorem C4_debounce_witness :
    (Pressed_debounce true 300 ⟨0, false⟩).2.last_time = 300 ∧
    (Pressed_debounce true 400 (Pressed_debounce true 300 ⟨0, false⟩).2).1 =
      false :=
  ⟨(C4_debounce.1 true 300 ⟨0, false⟩ (by decide)).2.2,
   C4_debounce.2.2 ⟨0, false⟩ 300 400 (by decide) (by decide) (by decide)⟩

/-- C5 counterexample: with a pending reset pulse (`resetar_sistema =
true`), an occupancy snapshot of 0 and a last-rendered value of 0,
`vDisplayTask` draws nothing at all — the pending reset pulse does not
force a "reset confirmed" render when the occupancy is unchanged. -/
theorem C5_display_counterexample :
    (vDisplayStep true 0 0).1 = Screen.noRender ∧
    (vDisplayStep true 0 0).1 ≠ Screen.resetScreen := by
  decide

/-- C5 (amended): the display suppresses any redraw whenever the
snapshotted occupancy equals that of its last render, even when a reset
pulse is pending; only when the occupancy changed does a pending reset
pulse produce the "reset confirmed" screen instead of the normal
screen. -/
theorem C5_display_render (pulse : Bool) (num prev : ℤ) :
    (num = prev → vDisplayStep pulse num prev = (Screen.noRender, prev)) ∧
    (num ≠ prev → pulse = true →
        vDisplayStep pulse num prev = (Screen.resetScreen, num)) ∧
    (num ≠ prev → pulse = false →
        vDisplayStep pulse num prev =
          (Screen.normalScreen num (displayInfo num), num)) := by
  refine ⟨fun h => ?_, fun h hp => ?_, fun h hp => ?_⟩
  · simp [vDisplayStep, h]
  · subst hp
    simp [vDisplayStep, h]
  · subst hp
    simp [vDisplayStep, h]

/-- Witness for C5 at concrete inputs: unchanged occupancy with a
pending pulse renders nothing; changed occupancy renders the reset
screen when the pulse is pending and the normal screen otherwise. -/
theorem C5_display_render_witness :
    vDisplayStep true 0 0 = (Screen.noRender, 0) ∧
    vDisplayStep true 1 0 = (Screen.resetScreen, 1) ∧
    vDisplayStep false 1 0 = (Screen.normalScreen 1 (displayInfo 1), 1) :=
  ⟨(C5_display_render true 0 0).1 rfl,
   (C5_display_render true 1 0).2.1 (by decide) rfl,
   (C5_display_render false 1 0).2.2 (by decide) rfl⟩

/-- C6: the reset channel coalesces — a second ISR give while a signal
is pending is absorbed (the give fails and the pending state is
unchanged), raising twice is equivalent to raising once, and both
produce exactly one `drain_and_reset` execution when the reset task
runs (and none on a further run). -/
theorem C6_reset_coalescing (s : SysState) :
    (resetGiveFromISR (resetGiveFromISR s.resetPending).1).2 = false ∧
    (resetGiveFromISR (resetGiveFromISR s.resetPending).1).1 =
      (resetGiveFromISR s.resetPending).1 ∧
    resetTaskRun
        { s with resetPending :=
            (resetGiveFromISR (resetGiveFromISR s.resetPending).1).1 } =
      resetTaskRun { s with resetPending := (resetGiveFromISR s.resetPending).1 } ∧
    (resetTaskRun
        { s with resetPending :=
            (resetGiveFromISR (resetGiveFromISR s.resetPending).1).1 }).2 = 1 ∧
    (resetTaskRun
        (resetTaskRun
          { s with resetPending :=
              (resetGiveFromISR (resetGiveFromISR s.resetPending).1).1 }).1).2 =
      0 := by
  by_cases hp : s.resetPending = true <;>
    simp [resetGiveFromISR, resetTaskRun, hp]

/-- C7: the exit-acceptance step of `vSaidaTask` in a state with
occupancy 0 reports rejection (`AlreadyEmpty` is the only rejection
cause) and changes nothing at all — in particular the occupancy stays
0 and `Entrada_nao_permetida` and `resetar_sistema` are untouched. -/
theorem C7_try_decrement_empty (s : SysState)
    (h1 : s.Num_Pessoas = (s.semCount : ℤ)) (h0 : s.Num_Pessoas = 0) :
    (try_decrement s).2 = false ∧ (try_decrement s).1 = s := by
  have hs : s.semCount = 0 := by omega
  simp [try_decrement, semTake, hs]

/-- Witness for C7 at the initial (empty) state. -/
theorem C7_try_decrement_empty_witness :
    (try_decrement init_state).2 = false ∧
    (try_decrement init_state).1 = init_state :=
  C7_try_decrement_empty init_state rfl rfl

/-- C8: for every occupancy in `[0, Max_pessoas]` the branch chains of
`vMatriz_LedsTask` and `vLeds_RGBTask` select exactly the color of the
spec's `OccupancyBand` (blue for Empty, green for Normal, yellow for
Warning, red for Full), and the band (hence some branch) is defined on
the whole range — the branch conditions partition `[0, Max_pessoas]`
along the band boundaries. -/
theorem C8_band_colors (num : ℤ) (h0 : 0 ≤ num)
    (h1 : num ≤ (Max_pessoas : ℤ)) :
    matrizColor num = Option.map bandColor (occupancyBand (Max_pessoas : ℤ) num) ∧
    rgbLevels num = Option.map bandRgb (occupancyBand (Max_pessoas : ℤ) num) ∧
    (occupancyBand (Max_pessoas : ℤ) num).isSome = true := by
  have h10 : num ≤ 10 := by
    simpa [Max_pessoas] using h1
  interval_cases num <;> decide

/-- Witness for C8 at occupancy 9 (the Warning band). -/
theorem C8_band_colors_witness :
    matrizColor 9 = Option.map bandColor (occupancyBand (Max_pessoas : ℤ) 9) ∧
    rgbLevels 9 = Option.map bandRgb (occupancyBand (Max_pessoas : ℤ) 9) ∧
    (occupancyBand (Max_pessoas : ℤ) 9).isSome = true :=
  C8_band_colors 9 (by decide) (by decide)

/-- C9: on its first iteration the display task always renders: its
remembered previous value starts at `-1`, which lies outside
`[0, Max_pessoas]`, so the change-detection guard fires for every valid
first snapshot, including occupancy 0. -/
theorem C9_first_render (pulse : Bool) (num : ℤ) (h0 : 0 ≤ num)
    (h1 : num ≤ (Max_pessoas : ℤ)) :
    num ≠ numero_anterior_init ∧
    (vDisplayStep pulse num numero_anterior_init).1 ≠ Screen.noRender := by
  have hne : num ≠ numero_anterior_init := by
    simp only [numero_anterior_init]
    omega
  refine ⟨hne, ?_⟩
  cases pulse <;> simp [vDisplayStep, hne]

/-- Witness for C9: occupancy 0 with no pending pulse renders on the
first iteration. -/
theorem C9_first_render_witness :
    (0 : ℤ) ≠ numero_anterior_init ∧
    (vDisplayStep false 0 numero_anterior_init).1 ≠ Screen.noRender :=
  C9_first_render false 0 (by decide) (by decide)

end AccessControl
